import Mathlib

/-!
Shallow embedding of `phone_agent/adb/screenshot.py`.

The module captures an Android screenshot over adb. External collaborators
(the subprocess runner, the utf-8 text decoder, the PIL image codec) are
modelled as explicit parameters; the decision procedure of `get_screenshot`,
the placeholder generator `_create_fallback_screenshot` and the command
builder `_get_adb_prefix` are translated directly from the source.
-/

namespace AdbScreenshot

/-- Raw bytes (each entry one byte value). -/
abbrev Bytes := List Nat

/-- Source: `@dataclass class Screenshot` — a captured screenshot. -/
structure Screenshot where
  base64_data : String
  width : Nat
  height : Nat
  is_sensitive : Bool
deriving DecidableEq

/-- An in-memory decoded image as PIL exposes it: dimensions plus an RGB
pixel lookup. -/
structure Img where
  width : Nat
  height : Nat
  pixel : Nat → Nat → Nat × Nat × Nat

/-- Source: `Image.new("RGB", (w, h), color="black")` — the solid black image. -/
def blackImage (w h : Nat) : Img :=
  ⟨w, h, fun _ _ => (0, 0, 0)⟩

/-- The standard base64 alphabet, indexed 0..63. -/
def b64Char (n : Nat) : Char :=
  if n < 26 then Char.ofNat (65 + n)
  else if n < 52 then Char.ofNat (97 + (n - 26))
  else if n < 62 then Char.ofNat (48 + (n - 52))
  else if n = 62 then '+'
  else '/'

/-- Source: `base64.b64encode` — standard base64 with `=` padding. -/
def b64encode : Bytes → List Char
  | [] => []
  | [a] => [b64Char (a / 4), b64Char (a % 4 * 16), '=', '=']
  | [a, b] => [b64Char (a / 4), b64Char (a % 4 * 16 + b / 16), b64Char (b % 16 * 4), '=']
  | a :: b :: c :: rest =>
      b64Char (a / 4) :: b64Char (a % 4 * 16 + b / 16) ::
        b64Char (b % 16 * 4 + c / 64) :: b64Char (c % 64) :: b64encode rest

/-- A completed `subprocess.run` call: captured stdout and stderr bytes. -/
structure RunResult where
  stdout : Bytes
  stderr : Bytes
deriving DecidableEq

/-- Outcome of one `subprocess.run` invocation: either an exception
(timeout, launch failure — line 49 `except Exception as e`) or a completed
result with captured output. -/
inductive RunOutcome where
  | exn (msg : String)
  | ok (r : RunResult)
deriving DecidableEq

/-- The deterministic library collaborators of the module:
`bytes.decode("utf-8", errors="ignore")` (total: with `errors="ignore"` it
never raises), `PIL.Image.open` + `.size` (`none` models a raised
exception), and `img.save(buffered, format="PNG")`. -/
structure Codec where
  utf8Dec : Bytes → String
  decodeImg : Bytes → Option Img
  encodePNG : Img → Bytes

/-- Source line 64: `b"\x89PNG\r\n\x1a\n"`, the PNG magic byte sequence. -/
def pngMagic : Bytes := [0x89, 0x50, 0x4E, 0x47, 0x0D, 0x0A, 0x1A, 0x0A]

/-- Substring containment on character lists: does `pat` occur contiguously
inside the second list? Models Python `pat in s`. -/
def containsSub (pat : List Char) : List Char → Bool
  | [] => pat.isEmpty
  | c :: rest => pat.isPrefixOf (c :: rest) || containsSub pat rest

/-- Python `pat in s` on strings. -/
def strContainsSub (s pat : String) : Bool :=
  containsSub pat.data s.data

/-- Source lines 59 and 70: `"Status: -1" in text or "Failed" in text`. -/
def hasRefusalMarker (s : String) : Bool :=
  strContainsSub s "Status: -1" || strContainsSub s "Failed"

/-- Source lines 54-56: `stderr_text = ""` unless `result.stderr` is truthy,
in which case it is decoded with `errors="ignore"`. -/
def stderrText (codec : Codec) (r : RunResult) : String :=
  if r.stderr.isEmpty then "" else codec.utf8Dec r.stderr

/-- Source: `_create_fallback_screenshot` — black 1080x2400 image, PNG
encoded, base64 encoded, wrapped with the given sensitivity flag. -/
def create_fallback_screenshot (codec : Codec) (is_sensitive : Bool) : Screenshot :=
  ⟨String.mk (b64encode (codec.encodePNG (blackImage 1080 2400))), 1080, 2400, is_sensitive⟩

/-- Source: `_get_adb_prefix` — `if device_id:` is Python truthiness, so
`None` and the empty string both fall through to the bare `["adb"]`. -/
def get_adb_prefix (device_id : Option String) : List String :=
  match device_id with
  | some d => if d = "" then ["adb"] else ["adb", "-s", d]
  | none => ["adb"]

/-- Source line 45: `adb_prefix + ["exec-out", "screencap", "-p"]`. -/
def screenshot_command (device_id : Option String) : List String :=
  get_adb_prefix device_id ++ ["exec-out", "screencap", "-p"]

/-- How one iteration of the `for _ in range(2)` loop body ends:
`ret` = a `return` statement fires inside the loop; `raise` = an exception
escapes the loop body (only `Image.open` can raise there); `cont` = a
`continue` after recording `err` into `last_error`. -/
inductive StepOut where
  | ret (s : Screenshot)
  | raise (msg : String)
  | cont (err : String)
deriving DecidableEq

/-- One iteration of the retry loop body (source lines 43-84), given the
outcome `o` of this iteration's `subprocess.run`. -/
def attemptBody (codec : Codec) (o : RunOutcome) : StepOut :=
  match o with
  | .exn e => .cont e
  | .ok result =>
    let stdout_bytes := result.stdout
    let stderr_text := stderrText codec result
    if stdout_bytes.isEmpty then
      if hasRefusalMarker stderr_text then
        .ret (create_fallback_screenshot codec true)
      else
        .cont "empty screenshot output"
    else if ! pngMagic.isPrefixOf stdout_bytes then
      -- lines 65-69: `combined_text += stdout_bytes.decode("utf-8", errors="ignore")`
      -- inside try/except pass; with errors="ignore" the decode is total, so
      -- the append always happens.
      let combined_text := stderr_text ++ codec.utf8Dec stdout_bytes
      if hasRefusalMarker combined_text then
        .ret (create_fallback_screenshot codec true)
      else
        .cont "screenshot output is not PNG"
    else
      match codec.decodeImg stdout_bytes with
      | none => .raise "Image.open failed"
      | some img =>
          .ret ⟨String.mk (b64encode stdout_bytes), img.width, img.height, false⟩

/-- How the whole `for` loop (lines 42-84) ends: a `return` from inside, an
exception escaping it, or exhaustion carrying the final `last_error` slot. -/
inductive LoopOut where
  | returned (s : Screenshot)
  | raised (msg : String)
  | exhausted (last_error : Option String)
deriving DecidableEq

/-- The retry loop: `i` is the index of the next attempt, `n` the number of
attempts still allowed, the `Option String` the `last_error` slot. The
second component counts how many times `subprocess.run` was invoked. -/
def runLoop (codec : Codec) (run1 : Nat → RunOutcome) :
    Nat → Nat → Option String → LoopOut × Nat
  | _, 0, last_error => (.exhausted last_error, 0)
  | i, n + 1, _ =>
    match attemptBody codec (run1 i) with
    | .ret s => (.returned s, 1)
    | .raise m => (.raised m, 1)
    | .cont e =>
      let rest := runLoop codec run1 (i + 1) n (some e)
      (rest.1, rest.2 + 1)

/-- The loop of `get_screenshot` for a given device and timeout:
`run cmd timeout i` is the outcome of the `i`-th `subprocess.run` of command
`cmd`. Starts at attempt 0 with 2 attempts allowed and `last_error = None`. -/
def captureLoop (codec : Codec) (run : List String → Nat → Nat → RunOutcome)
    (device_id : Option String) (timeout : Nat) : LoopOut × Nat :=
  runLoop codec (fun i => run (screenshot_command device_id) timeout i) 0 2 none

/-- Source: `get_screenshot` (lines 22-93). The outer `try` converts an
exception escaping the loop, and the post-loop `raise last_error`, into the
non-sensitive fallback; loop exhaustion with no recorded error returns the
non-sensitive fallback directly (line 89). -/
def get_screenshot (codec : Codec) (run : List String → Nat → Nat → RunOutcome)
    (device_id : Option String) (timeout : Nat) : Screenshot :=
  match (captureLoop codec run device_id timeout).1 with
  | .returned s => s
  | .raised _ => create_fallback_screenshot codec false
  | .exhausted (some _) => create_fallback_screenshot codec false
  | .exhausted none => create_fallback_screenshot codec false

/-! ### Concrete sample collaborators, used to instantiate the theorems. -/

/-- Bytes of an ASCII string. -/
def asciiBytes (s : String) : Bytes := s.data.map Char.toNat

/-- A concrete total text decoder (ASCII); stands in for
`bytes.decode("utf-8", errors="ignore")` on concrete inputs. -/
def asciiDec (bs : Bytes) : String := String.mk (bs.map Char.ofNat)

/-- A concrete PNG encoder: dimensions in little-endian byte pairs. -/
def sampleEncodePNG (img : Img) : Bytes :=
  [img.width % 256, img.width / 256, img.height % 256, img.height / 256]

/-- A concrete PNG decoder inverting `sampleEncodePNG` on black images. -/
def sampleDecodeImg : Bytes → Option Img
  | [a, b, c, d] => some (blackImage (a + 256 * b) (c + 256 * d))
  | _ => none

/-- A concrete codec built from the sample collaborators. -/
def sampleCodec : Codec := ⟨asciiDec, sampleDecodeImg, sampleEncodePNG⟩

/-- A codec whose image decoder accepts any byte string, yielding a 7x5
image; used to exercise the success path on concrete inputs. -/
def acceptingCodec : Codec := ⟨asciiDec, fun _ => some (blackImage 7 5), sampleEncodePNG⟩

/-- Unrolling of the two-attempt loop: it is fully determined by the bodies
of attempts 0 and 1. -/
theorem runLoop_two (codec : Codec) (r : Nat → RunOutcome) :
    runLoop codec r 0 2 none =
      match attemptBody codec (r 0) with
      | .ret s => (LoopOut.returned s, 1)
      | .raise m => (LoopOut.raised m, 1)
      | .cont _ =>
        match attemptBody codec (r 1) with
        | .ret s => (LoopOut.returned s, 2)
        | .raise m => (LoopOut.raised m, 2)
        | .cont e => (LoopOut.exhausted (some e), 2) := by
  cases h0 : attemptBody codec (r 0) <;> cases h1 : attemptBody codec (r 1) <;>
    simp [runLoop, h0, h1]

/-- `get_screenshot` is the loop result when the loop returned, and the
non-sensitive fallback in every other case. -/
theorem get_screenshot_spec (codec : Codec) (run : List String → Nat → Nat → RunOutcome)
    (device_id : Option String) (timeout : Nat) :
    get_screenshot codec run device_id timeout =
      match (captureLoop codec run device_id timeout).1 with
      | LoopOut.returned s => s
      | LoopOut.raised _ => create_fallback_screenshot codec false
      | LoopOut.exhausted _ => create_fallback_screenshot codec false := by
  unfold get_screenshot
  cases (captureLoop codec run device_id timeout).1 with
  | returned s => rfl
  | raised m => rfl
  | exhausted le => cases le <;> rfl

/-- A loop iteration whose run result matches one of the two refusal-marker
branches returns the sensitive fallback. -/
theorem attemptBody_refusal (codec : Codec) (r : RunResult)
    (hcase : (r.stdout = [] ∧ hasRefusalMarker (stderrText codec r) = true) ∨
      (r.stdout ≠ [] ∧ pngMagic.isPrefixOf r.stdout = false ∧
        hasRefusalMarker (stderrText codec r ++ codec.utf8Dec r.stdout) = true)) :
    attemptBody codec (RunOutcome.ok r) = StepOut.ret (create_fallback_screenshot codec true) := by
  rcases hcase with ⟨h1, h2⟩ | ⟨h1, h2, h3⟩
  · simp [attemptBody, h1, h2]
  · have hne : r.stdout.isEmpty = false := by
      cases hs : r.stdout with
      | nil => exact absurd hs h1
      | cons a as => rfl
    simp [attemptBody, hne, h2, h3]

/-- A loop iteration whose stdout starts with the PNG magic and decodes
returns the real screenshot record. -/
theorem attemptBody_success (codec : Codec) (r : RunResult) (img : Img)
    (hpng : pngMagic.isPrefixOf r.stdout = true)
    (himg : codec.decodeImg r.stdout = some img) :
    attemptBody codec (RunOutcome.ok r) =
      StepOut.ret ⟨String.mk (b64encode r.stdout), img.width, img.height, false⟩ := by
  have hne : r.stdout.isEmpty = false := by
    cases hs : r.stdout with
    | nil => rw [hs] at hpng; exact absurd hpng (by decide)
    | cons a as => rfl
  simp [attemptBody, hne, hpng, himg]

/-- If an iteration returns a record with the sensitive flag set, the run
completed and a refusal marker was present in the stderr text or in the
combined stderr and decoded stdout text. -/
theorem attemptBody_ret_sensitive (codec : Codec) (o : RunOutcome) (s : Screenshot)
    (h : attemptBody codec o = StepOut.ret s) (hs : s.is_sensitive = true) :
    ∃ r, o = RunOutcome.ok r ∧
      (hasRefusalMarker (stderrText codec r) = true ∨
        hasRefusalMarker (stderrText codec r ++ codec.utf8Dec r.stdout) = true) := by
  cases o with
  | exn e => simp [attemptBody] at h
  | ok r =>
    refine ⟨r, rfl, ?_⟩
    simp only [attemptBody] at h
    split_ifs at h with h1 h2 h3 h4 <;>
      first
      | exact Or.inl h2
      | exact Or.inr h4
      | (cases himg : codec.decodeImg r.stdout with
        | none =>
          rw [himg] at h
          simp at h
        | some img =>
          rw [himg] at h
          simp at h
          subst h
          simp at hs)

/-- C1: for every device id, timeout and every behaviour of the process,
decode and encode collaborators, `get_screenshot` returns a fully populated
`Screenshot`: either the record some loop iteration returned, or the
non-sensitive fallback; and whenever an exception escapes the inner loop
(`raised`) or the recorded last error is re-raised after exhaustion, the
result is the 1080x2400 placeholder with `is_sensitive = false`. -/
theorem c1_never_fails_outward (codec : Codec) (run : List String → Nat → Nat → RunOutcome)
    (device_id : Option String) (timeout : Nat) :
    ((∃ s, (captureLoop codec run device_id timeout).1 = LoopOut.returned s ∧
        get_screenshot codec run device_id timeout = s) ∨
      get_screenshot codec run device_id timeout = create_fallback_screenshot codec false) ∧
    (∀ m, (captureLoop codec run device_id timeout).1 = LoopOut.raised m →
      get_screenshot codec run device_id timeout = create_fallback_screenshot codec false ∧
      (get_screenshot codec run device_id timeout).width = 1080 ∧
      (get_screenshot codec run device_id timeout).height = 2400 ∧
      (get_screenshot codec run device_id timeout).is_sensitive = false) ∧
    (∀ e, (captureLoop codec run device_id timeout).1 = LoopOut.exhausted (some e) →
      get_screenshot codec run device_id timeout = create_fallback_screenshot codec false) := by
  refine ⟨?_, ?_, ?_⟩
  · cases h : (captureLoop codec run device_id timeout).1 with
    | returned s => exact Or.inl ⟨s, rfl, by rw [get_screenshot_spec, h]⟩
    | raised m => exact Or.inr (by rw [get_screenshot_spec, h])
    | exhausted le => exact Or.inr (by rw [get_screenshot_spec, h])
  · intro m h
    rw [get_screenshot_spec, h]
    exact ⟨rfl, rfl, rfl, rfl⟩
  · intro e h
    rw [get_screenshot_spec, h]

/-- C1 witness: a PNG-magic stdout whose image decode raises ends in the
raised case and yields the non-sensitive fallback. -/
theorem c1_witness :
    get_screenshot sampleCodec (fun _ _ _ => RunOutcome.ok ⟨pngMagic, []⟩) none 60 =
      create_fallback_screenshot sampleCodec false ∧
    (get_screenshot sampleCodec (fun _ _ _ => RunOutcome.ok ⟨pngMagic, []⟩) none 60).is_sensitive =
      false :=
  have h := (c1_never_fails_outward sampleCodec (fun _ _ _ => RunOutcome.ok ⟨pngMagic, []⟩)
    none 60).2.1 "Image.open failed" (by decide)
  ⟨h.1, h.2.2.2⟩

/-- C2: an executed attempt (all earlier attempts continued) whose run
completed with either empty stdout and a refusal marker in the stderr text,
or non-PNG stdout and a refusal marker in the combined stderr plus decoded
stdout text, makes `get_screenshot` return the sensitive 1080x2400 fallback
immediately: the process is not invoked again. -/
theorem c2_refusal_immediate (codec : Codec) (run : List String → Nat → Nat → RunOutcome)
    (device_id : Option String) (timeout : Nat) (i : Nat) (hi : i < 2) (r : RunResult)
    (hrun : run (screenshot_command device_id) timeout i = RunOutcome.ok r)
    (hprev : ∀ j, j < i →
      ∃ e, attemptBody codec (run (screenshot_command device_id) timeout j) = StepOut.cont e)
    (hcase : (r.stdout = [] ∧ hasRefusalMarker (stderrText codec r) = true) ∨
      (r.stdout ≠ [] ∧ pngMagic.isPrefixOf r.stdout = false ∧
        hasRefusalMarker (stderrText codec r ++ codec.utf8Dec r.stdout) = true)) :
    get_screenshot codec run device_id timeout = create_fallback_screenshot codec true ∧
    (captureLoop codec run device_id timeout).2 = i + 1 ∧
    (get_screenshot codec run device_id timeout).is_sensitive = true ∧
    (get_screenshot codec run device_id timeout).width = 1080 ∧
    (get_screenshot codec run device_id timeout).height = 2400 := by
  have hbody : attemptBody codec (run (screenshot_command device_id) timeout i) =
      StepOut.ret (create_fallback_screenshot codec true) := by
    rw [hrun]; exact attemptBody_refusal codec r hcase
  interval_cases i
  · have hloop : captureLoop codec run device_id timeout =
        (LoopOut.returned (create_fallback_screenshot codec true), 1) := by
      unfold captureLoop
      rw [runLoop_two]
      simp [hbody]
    rw [get_screenshot_spec, hloop]
    exact ⟨rfl, rfl, rfl, rfl, rfl⟩
  · obtain ⟨e0, he0⟩ := hprev 0 (by omega)
    have hloop : captureLoop codec run device_id timeout =
        (LoopOut.returned (create_fallback_screenshot codec true), 2) := by
      unfold captureLoop
      rw [runLoop_two]
      simp [he0, hbody]
    rw [get_screenshot_spec, hloop]
    exact ⟨rfl, rfl, rfl, rfl, rfl⟩

/-- C2 witness: empty stdout with "Failed" on stderr at attempt 0 returns
the sensitive fallback after exactly one process invocation. -/
theorem c2_witness :
    get_screenshot sampleCodec (fun _ _ _ => RunOutcome.ok ⟨[], asciiBytes "Failed"⟩) none 60 =
      create_fallback_screenshot sampleCodec true ∧
    (captureLoop sampleCodec (fun _ _ _ => RunOutcome.ok ⟨[], asciiBytes "Failed"⟩) none 60).2 =
      1 :=
  have h := c2_refusal_immediate sampleCodec
    (fun _ _ _ => RunOutcome.ok ⟨[], asciiBytes "Failed"⟩) none 60 0 (by decide)
    ⟨[], asciiBytes "Failed"⟩ rfl (fun j hj => absurd hj (Nat.not_lt_zero j))
    (Or.inl ⟨rfl, by decide⟩)
  ⟨h.1, h.2.1⟩

/-- C3: an executed attempt (all earlier attempts continued) whose stdout
starts with the PNG magic and decodes as an image makes `get_screenshot`
return the non-sensitive record with the decoded dimensions and the base64
encoding of the raw stdout bytes, ending the loop at that attempt. -/
theorem c3_success_path (codec : Codec) (run : List String → Nat → Nat → RunOutcome)
    (device_id : Option String) (timeout : Nat) (i : Nat) (hi : i < 2) (r : RunResult)
    (img : Img)
    (hrun : run (screenshot_command device_id) timeout i = RunOutcome.ok r)
    (hprev : ∀ j, j < i →
      ∃ e, attemptBody codec (run (screenshot_command device_id) timeout j) = StepOut.cont e)
    (hpng : pngMagic.isPrefixOf r.stdout = true)
    (himg : codec.decodeImg r.stdout = some img) :
    get_screenshot codec run device_id timeout =
      ⟨String.mk (b64encode r.stdout), img.width, img.height, false⟩ ∧
    (captureLoop codec run device_id timeout).2 = i + 1 := by
  have hbody : attemptBody codec (run (screenshot_command device_id) timeout i) =
      StepOut.ret ⟨String.mk (b64encode r.stdout), img.width, img.height, false⟩ := by
    rw [hrun]; exact attemptBody_success codec r img hpng himg
  interval_cases i
  · have hloop : captureLoop codec run device_id timeout =
        (LoopOut.returned ⟨String.mk (b64encode r.stdout), img.width, img.height, false⟩, 1) := by
      unfold captureLoop
      rw [runLoop_two]
      simp [hbody]
    rw [get_screenshot_spec, hloop]
    exact ⟨rfl, rfl⟩
  · obtain ⟨e0, he0⟩ := hprev 0 (by omega)
    have hloop : captureLoop codec run device_id timeout =
        (LoopOut.returned ⟨String.mk (b64encode r.stdout), img.width, img.height, false⟩, 2) := by
      unfold captureLoop
      rw [runLoop_two]
      simp [he0, hbody]
    rw [get_screenshot_spec, hloop]
    exact ⟨rfl, rfl⟩

/-- C3 witness: a PNG-magic stdout that decodes as a 7x5 image yields the
real screenshot record after one invocation. -/
theorem c3_witness :
    get_screenshot acceptingCodec (fun _ _ _ => RunOutcome.ok ⟨pngMagic, []⟩) none 60 =
      ⟨String.mk (b64encode pngMagic), 7, 5, false⟩ ∧
    (captureLoop acceptingCodec (fun _ _ _ => RunOutcome.ok ⟨pngMagic, []⟩) none 60).2 = 1 :=
  c3_success_path acceptingCodec (fun _ _ _ => RunOutcome.ok ⟨pngMagic, []⟩) none 60 0
    (by decide) ⟨pngMagic, []⟩ (blackImage 7 5) rfl
    (fun j hj => absurd hj (Nat.not_lt_zero j)) (by decide) rfl

/-- C4: when both attempts end in a recorded error (`cont`), the loop
exhausts carrying the error of the second attempt — the branch that logs
the last error and re-raises it — and `get_screenshot` returns the
non-sensitive 1080x2400 fallback. -/
theorem c4_exhausted_retries (codec : Codec) (run : List String → Nat → Nat → RunOutcome)
    (device_id : Option String) (timeout : Nat)
    (hfail : ∀ i, i < 2 →
      ∃ e, attemptBody codec (run (screenshot_command device_id) timeout i) = StepOut.cont e) :
    get_screenshot codec run device_id timeout = create_fallback_screenshot codec false ∧
    (get_screenshot codec run device_id timeout).is_sensitive = false ∧
    (get_screenshot codec run device_id timeout).width = 1080 ∧
    (get_screenshot codec run device_id timeout).height = 2400 ∧
    (∀ e, attemptBody codec (run (screenshot_command device_id) timeout 1) = StepOut.cont e →
      (captureLoop codec run device_id timeout).1 = LoopOut.exhausted (some e)) := by
  obtain ⟨e0, he0⟩ := hfail 0 (by omega)
  obtain ⟨e1, he1⟩ := hfail 1 (by omega)
  have hloop : captureLoop codec run device_id timeout =
      (LoopOut.exhausted (some e1), 2) := by
    unfold captureLoop
    rw [runLoop_two]
    simp [he0, he1]
  refine ⟨by rw [get_screenshot_spec, hloop], by rw [get_screenshot_spec, hloop]; rfl,
    by rw [get_screenshot_spec, hloop]; rfl, by rw [get_screenshot_spec, hloop]; rfl, ?_⟩
  intro e he
  rw [hloop]
  rw [he1] at he
  simp only [StepOut.cont.injEq] at he
  rw [he]

/-- C4 witness: both attempts raising an invocation exception yields the
non-sensitive fallback, with the loop exhausted on the second error. -/
theorem c4_witness :
    get_screenshot sampleCodec (fun _ _ _ => RunOutcome.exn "timed out") none 60 =
      create_fallback_screenshot sampleCodec false ∧
    (captureLoop sampleCodec (fun _ _ _ => RunOutcome.exn "timed out") none 60).1 =
      LoopOut.exhausted (some "timed out") :=
  have h := c4_exhausted_retries sampleCodec (fun _ _ _ => RunOutcome.exn "timed out") none 60
    (fun _ _ => ⟨"timed out", rfl⟩)
  ⟨h.1, h.2.2.2.2 "timed out" rfl⟩

/-- C5: the returned record is sensitive only when some executed attempt
completed with a refusal marker in its stderr text or in the combined
stderr plus decoded stdout text; every other path yields a non-sensitive
record. -/
theorem c5_sensitive_only_on_refusal (codec : Codec)
    (run : List String → Nat → Nat → RunOutcome)
    (device_id : Option String) (timeout : Nat)
    (hsens : (get_screenshot codec run device_id timeout).is_sensitive = true) :
    ∃ i, i < 2 ∧ ∃ r, run (screenshot_command device_id) timeout i = RunOutcome.ok r ∧
      (hasRefusalMarker (stderrText codec r) = true ∨
        hasRefusalMarker (stderrText codec r ++ codec.utf8Dec r.stdout) = true) := by
  have hfb : ∀ h0 : get_screenshot codec run device_id timeout =
      create_fallback_screenshot codec false, False := by
    intro h0
    rw [h0] at hsens
    simp [create_fallback_screenshot] at hsens
  cases h0 : attemptBody codec (run (screenshot_command device_id) timeout 0) with
  | ret s0 =>
    have hloop : captureLoop codec run device_id timeout = (LoopOut.returned s0, 1) := by
      unfold captureLoop
      rw [runLoop_two]
      simp [h0]
    have hget : get_screenshot codec run device_id timeout = s0 := by
      rw [get_screenshot_spec, hloop]
    obtain ⟨r, hr, hm⟩ :=
      attemptBody_ret_sensitive codec _ s0 h0 (by rw [hget] at hsens; exact hsens)
    exact ⟨0, by omega, r, hr, hm⟩
  | raise m =>
    have hloop : captureLoop codec run device_id timeout = (LoopOut.raised m, 1) := by
      unfold captureLoop
      rw [runLoop_two]
      simp [h0]
    exact absurd (by rw [get_screenshot_spec, hloop]) (fun h => hfb h)
  | cont e0 =>
    cases h1 : attemptBody codec (run (screenshot_command device_id) timeout 1) with
    | ret s1 =>
      have hloop : captureLoop codec run device_id timeout = (LoopOut.returned s1, 2) := by
        unfold captureLoop
        rw [runLoop_two]
        simp [h0, h1]
      have hget : get_screenshot codec run device_id timeout = s1 := by
        rw [get_screenshot_spec, hloop]
      obtain ⟨r, hr, hm⟩ :=
        attemptBody_ret_sensitive codec _ s1 h1 (by rw [hget] at hsens; exact hsens)
      exact ⟨1, by omega, r, hr, hm⟩
    | raise m =>
      have hloop : captureLoop codec run device_id timeout = (LoopOut.raised m, 2) := by
        unfold captureLoop
        rw [runLoop_two]
        simp [h0, h1]
      exact absurd (by rw [get_screenshot_spec, hloop]) (fun h => hfb h)
    | cont e1 =>
      have hloop : captureLoop codec run device_id timeout =
          (LoopOut.exhausted (some e1), 2) := by
        unfold captureLoop
        rw [runLoop_two]
        simp [h0, h1]
      exact absurd (by rw [get_screenshot_spec, hloop]) (fun h => hfb h)

/-- C5 witness: a run whose only sensitive outcome comes from a "Status: -1"
stderr marker on the second attempt. -/
theorem c5_witness :
    ∃ i, i < 2 ∧ ∃ r,
      (fun (_ : List String) (_ : Nat) (i : Nat) =>
          if i = 0 then RunOutcome.exn "timed out"
          else RunOutcome.ok ⟨[], asciiBytes "Status: -1"⟩)
        (screenshot_command none) 60 i = RunOutcome.ok r ∧
      (hasRefusalMarker (stderrText sampleCodec r) = true ∨
        hasRefusalMarker (stderrText sampleCodec r ++ sampleCodec.utf8Dec r.stdout) = true) :=
  c5_sensitive_only_on_refusal sampleCodec
    (fun _ _ i =>
      if i = 0 then RunOutcome.exn "timed out"
      else RunOutcome.ok ⟨[], asciiBytes "Status: -1"⟩)
    none 60 (by decide)

/-- C6: the external command is run at most twice, and once the first
attempt returns a result from inside the loop (success or sensitive
fallback) no second invocation happens. -/
theorem c6_at_most_two_invocations (codec : Codec)
    (run : List String → Nat → Nat → RunOutcome)
    (device_id : Option String) (timeout : Nat) :
    (captureLoop codec run device_id timeout).2 ≤ 2 ∧
    (∀ s, attemptBody codec (run (screenshot_command device_id) timeout 0) = StepOut.ret s →
      (captureLoop codec run device_id timeout).2 = 1) := by
  constructor
  · unfold captureLoop
    rw [runLoop_two]
    cases h0 : attemptBody codec (run (screenshot_command device_id) timeout 0) <;>
      cases h1 : attemptBody codec (run (screenshot_command device_id) timeout 1) <;>
      simp
  · intro s hs
    unfold captureLoop
    rw [runLoop_two]
    simp [hs]

/-- C6 witness: a sensitive refusal on the first attempt stops after one
invocation, within the bound of two. -/
theorem c6_witness :
    (captureLoop sampleCodec (fun _ _ _ => RunOutcome.ok ⟨[], asciiBytes "Failed"⟩) none 60).2 ≤
      2 ∧
    (captureLoop sampleCodec (fun _ _ _ => RunOutcome.ok ⟨[], asciiBytes "Failed"⟩) none 60).2 =
      1 :=
  have h := c6_at_most_two_invocations sampleCodec
    (fun _ _ _ => RunOutcome.ok ⟨[], asciiBytes "Failed"⟩) none 60
  ⟨h.1, h.2 (create_fallback_screenshot sampleCodec true) (by decide)⟩

/-- C7: the fallback generator is pure; for both flags it yields a
1080x2400 record whose image data is the base64 encoding of bytes that
decode (whenever the codec round-trips on the black 1080x2400 image) to
the all-black image of those dimensions, and the two flag values agree on
every field except `is_sensitive`, which equals the argument. -/
theorem c7_placeholder (codec : Codec)
    (hround : codec.decodeImg (codec.encodePNG (blackImage 1080 2400)) =
      some (blackImage 1080 2400)) :
    (∀ b, (create_fallback_screenshot codec b).width = 1080 ∧
      (create_fallback_screenshot codec b).height = 2400 ∧
      (create_fallback_screenshot codec b).is_sensitive = b) ∧
    (create_fallback_screenshot codec true).base64_data =
      (create_fallback_screenshot codec false).base64_data ∧
    (∀ b, ∃ bytes img,
      (create_fallback_screenshot codec b).base64_data = String.mk (b64encode bytes) ∧
      codec.decodeImg bytes = some img ∧ img.width = 1080 ∧ img.height = 2400 ∧
      ∀ x y, img.pixel x y = (0, 0, 0)) :=
  ⟨fun _ => ⟨rfl, rfl, rfl⟩, rfl,
    fun _ => ⟨codec.encodePNG (blackImage 1080 2400), blackImage 1080 2400, rfl, hround,
      rfl, rfl, fun _ _ => rfl⟩⟩

/-- C7 witness: the sample codec round-trips, and the two fallbacks agree
on dimensions and image data. -/
theorem c7_witness :
    (create_fallback_screenshot sampleCodec true).width = 1080 ∧
    (create_fallback_screenshot sampleCodec true).height = 2400 ∧
    (create_fallback_screenshot sampleCodec true).base64_data =
      (create_fallback_screenshot sampleCodec false).base64_data :=
  ⟨((c7_placeholder sampleCodec rfl).1 true).1, ((c7_placeholder sampleCodec rfl).1 true).2.1,
    (c7_placeholder sampleCodec rfl).2.1⟩

/-- C8: two runs with the same device id, timeout and codec whose process
invocations give identical outcomes on both possible attempts produce
structurally identical screenshots. -/
theorem c8_deterministic (codec : Codec)
    (runA runB : List String → Nat → Nat → RunOutcome)
    (device_id : Option String) (timeout : Nat)
    (hagree : ∀ i, i < 2 →
      runA (screenshot_command device_id) timeout i =
        runB (screenshot_command device_id) timeout i) :
    get_screenshot codec runA device_id timeout =
      get_screenshot codec runB device_id timeout := by
  have h0 := hagree 0 (by omega)
  have h1 := hagree 1 (by omega)
  have hcap : captureLoop codec runA device_id timeout =
      captureLoop codec runB device_id timeout := by
    unfold captureLoop
    rw [runLoop_two, runLoop_two]
    simp [h0, h1]
  rw [get_screenshot_spec, get_screenshot_spec, hcap]

/-- A run that differs from always-exception only from the third attempt
index onwards. -/
def runAgreeTwo : List String → Nat → Nat → RunOutcome :=
  fun _ _ i => if i < 2 then RunOutcome.exn "boom" else RunOutcome.ok ⟨[], []⟩

/-- C8 witness: two transports that agree on attempts 0 and 1 give equal
results. -/
theorem c8_witness :
    get_screenshot sampleCodec runAgreeTwo none 60 =
      get_screenshot sampleCodec (fun _ _ _ => RunOutcome.exn "boom") none 60 :=
  c8_deterministic sampleCodec runAgreeTwo (fun _ _ _ => RunOutcome.exn "boom") none 60
    (by decide)

/-- C9: the two-attempt loop can only exhaust with a recorded last error:
every iteration that does not return records one, so the post-loop branch
returning a placeholder without logging (empty last error) is unreachable. -/
theorem c9_exhaustion_records_error (codec : Codec) (r : Nat → RunOutcome)
    (le : Option String)
    (h : (runLoop codec r 0 2 none).1 = LoopOut.exhausted le) :
    ∃ e, le = some e := by
  rw [runLoop_two] at h
  cases h0 : attemptBody codec (r 0) with
  | ret s => rw [h0] at h; simp at h
  | raise m => rw [h0] at h; simp at h
  | cont e0 =>
    rw [h0] at h
    cases h1 : attemptBody codec (r 1) with
    | ret s => rw [h1] at h; simp at h
    | raise m => rw [h1] at h; simp at h
    | cont e1 =>
      rw [h1] at h
      simp at h
      exact ⟨e1, h.symm⟩

/-- C9 witness: two invocation exceptions exhaust the loop with the last
error recorded. -/
theorem c9_witness :
    (runLoop sampleCodec (fun _ => RunOutcome.exn "t") 0 2 none).1 =
      LoopOut.exhausted (some "t") ∧
    ∃ e, (some "t" : Option String) = some e :=
  ⟨by decide,
    c9_exhaustion_records_error sampleCodec (fun _ => RunOutcome.exn "t") (some "t") (by decide)⟩

/-- C10: the empty-string device id builds the same command prefix as an
absent one, and any non-empty device id yields the selector flag followed
by exactly that id. -/
theorem c10_adb_prefix_empty_device (d : String) (hd : d ≠ "") :
    get_adb_prefix (some "") = get_adb_prefix none ∧
    get_adb_prefix (some d) = ["adb", "-s", d] := by
  constructor
  · rfl
  · show (if d = "" then ["adb"] else ["adb", "-s", d]) = ["adb", "-s", d]
    rw [if_neg hd]

/-- C10 witness: a concrete non-empty device id. -/
theorem c10_witness :
    ("emulator-5554" ≠ "") ∧
    get_adb_prefix (some "emulator-5554") = ["adb", "-s", "emulator-5554"] :=
  ⟨by decide, (c10_adb_prefix_empty_device "emulator-5554" (by decide)).2⟩

end AdbScreenshot
